import Mathlib

/-!
A shallow embedding of `pkg/plugin/restore_item_action.go` from the velero
repository: the bidirectional gRPC bridge for the restore ItemAction plugin
interface.  The caller-side Stub (`RestoreItemActionGRPCClient`) turns local
calls into serialized request envelopes; the callee-side Dispatcher
(`RestoreItemActionGRPCServer`) resolves a registered implementation by
plugin name, invokes it behind a fault guard, and serializes the outcome.

External collaborators are modelled abstractly:
* the JSON serializer (`encoding/json`) as a total function on an inductive
  document type, failing exactly on values the wire encoding cannot
  represent, and lossless on the rest;
* the gRPC channel as a function from a request envelope to a response
  envelope or an error, supplied as a parameter of the Stub;
* a runtime fault inside a registered implementation as a third constructor
  of the `Outcome` of invoking it, next to an ordinary value and an
  ordinary error.
-/

/-- A structured document: the schema-free nested key/value payload shape
(the content of an `unstructured.Unstructured` item, or the restore-job
descriptor).  The `unsupported` constructor stands for an in-memory value
that the wire encoding cannot represent, on which the serializer fails. -/
inductive Doc : Type where
  | null : Doc
  | bool (b : Bool) : Doc
  | num (n : Int) : Doc
  | str (s : String) : Doc
  | arr (elems : List Doc) : Doc
  | obj (fields : List (String × Doc)) : Doc
  | unsupported (tag : String) : Doc

mutual

/-- Whether the serializer succeeds on a document: it fails exactly when the
document contains a value the wire encoding cannot represent. -/
def Doc.serializable : Doc → Bool
  | .null => true
  | .bool _ => true
  | .num _ => true
  | .str _ => true
  | .arr elems => Doc.allSerializable elems
  | .obj fields => Doc.allFieldsSerializable fields
  | .unsupported _ => false

/-- All documents in a list are serializable. -/
def Doc.allSerializable : List Doc → Bool
  | [] => true
  | d :: ds => d.serializable && Doc.allSerializable ds

/-- All values of an object's fields are serializable. -/
def Doc.allFieldsSerializable : List (String × Doc) → Bool
  | [] => true
  | (_, d) :: fs => d.serializable && Doc.allFieldsSerializable fs

end

/-- A wire-level byte blob: either the encoding of a document, or bytes that
are not a valid encoding of any document (and fail to deserialize). -/
inductive Wire : Type where
  | enc (d : Doc) : Wire
  | garbage (tag : Nat) : Wire

/-- The error taxonomy of the bridge (spec section 7).  Go errors are plain
values carrying a message; the constructors record which condition produced
the error and the diagnostic content it carries. -/
inductive PErr : Type where
  | serialization : PErr
  | unknownPlugin (name : String) : PErr
  | notRestoreItemAction (typeName : String) : PErr
  | remote (msg : String) : PErr
  | recoveredFault (diag : String) : PErr
  | transport (msg : String) : PErr
deriving DecidableEq

/-- `json.Marshal` on a structured document (external serializer): succeeds
iff the document is representable in the wire encoding, and is lossless. -/
def marshal (d : Doc) : Except PErr Wire :=
  if d.serializable then .ok (.enc d) else .error .serialization

/-- `json.Unmarshal` of a wire blob back into a structured document: fails
on bytes that are not a valid encoding. -/
def unmarshal (w : Wire) : Except PErr Doc :=
  match w with
  | .enc d => .ok d
  | .garbage _ => .error .serialization

/-- `velero.ResourceSelector`: which resources an implementation applies
to. -/
structure ResourceSelector where
  includedNamespaces : List String
  excludedNamespaces : List String
  includedResources : List String
  excludedResources : List String
  labelSelector : String
deriving DecidableEq

/-- `velero.RestoreItemActionExecuteInput`: the three documents handed to an
implementation's Execute. -/
structure RestoreItemActionExecuteInput where
  item : Doc
  itemFromBackup : Doc
  restore : Doc

/-- `velero.RestoreItemActionExecuteOutput`: the updated item and an
optional warning (a nil-able Go error, modelled as an optional message). -/
structure RestoreItemActionExecuteOutput where
  updatedItem : Doc
  warning : Option String

/-- The outcome of invoking a registered implementation's method: a
returned value, a returned domain-level error, or an unrecoverable runtime
fault (a panic) carrying the diagnostic trace recoverable at the server
boundary. -/
inductive Outcome (α : Type) : Type where
  | ok (a : α) : Outcome α
  | err (msg : String) : Outcome α
  | panicked (diag : String) : Outcome α

/-- `velero.RestoreItemAction`: the pluggable interface, one registered
implementation.  Each method's behaviour is a pure description of what the
call would do, including the possibility of a runtime fault. -/
structure RestoreItemAction where
  AppliesTo : Outcome ResourceSelector
  Execute : RestoreItemActionExecuteInput → Outcome RestoreItemActionExecuteOutput

/-- A handler object held by the Registry: either an implementation of the
RestoreItemAction interface, or some other plugin object (whose dynamic
type name the dispatcher reports when it refuses to dispatch to it). -/
inductive Handler : Type where
  | restoreItemAction (impl : RestoreItemAction) : Handler
  | other (typeName : String) : Handler

/-- Modelled from the spec: the `serverMux` Registry (its source is not in
this file), a read-only mapping from plugin name to the registered handler
object, populated once before serving begins. -/
structure serverMux where
  handlers : List (String × Handler)

/-- Modelled from the spec: `serverMux.getHandler` (its source is not in
this file) looks a plugin name up in the Registry; an unregistered name
fails with `UnknownPluginError` naming the requested plugin. -/
def serverMux.getHandler (m : serverMux) (name : String) : Except PErr Handler :=
  match List.lookup name m.handlers with
  | some h => .ok h
  | none => .error (.unknownPlugin name)

/-- Modelled from the spec: `handlePanic` (its source is not in this file)
converts a recovered runtime fault into an ordinary error value carrying
diagnostic information including the captured trace. -/
def handlePanic (diag : String) : PErr :=
  .recoveredFault diag

/-- `proto.AppliesToRequest`. -/
structure AppliesToRequest where
  plugin : String

/-- `proto.AppliesToResponse`: the five wire selector fields. -/
structure AppliesToResponse where
  includedNamespaces : List String
  excludedNamespaces : List String
  includedResources : List String
  excludedResources : List String
  selector : String
deriving DecidableEq

/-- `proto.RestoreExecuteRequest`: the envelope carrying the plugin name and
the three serialized payload fields. -/
structure RestoreExecuteRequest where
  plugin : String
  item : Wire
  itemFromBackup : Wire
  restore : Wire

/-- `proto.RestoreExecuteResponse`: the serialized updated item and the
warning string (empty string = no warning). -/
structure RestoreExecuteResponse where
  item : Wire
  warning : String

/-- `RestoreItemActionGRPCClient`: the caller-side Stub.  `plugin` is the
plugin name from the client base; the two `grpc` fields are the RPC channel
(external collaborator), one function per remote operation, returning the
response envelope or a transport/remote error. -/
structure RestoreItemActionGRPCClient where
  plugin : String
  grpcAppliesTo : AppliesToRequest → Except PErr AppliesToResponse
  grpcExecute : RestoreExecuteRequest → Except PErr RestoreExecuteResponse

/-- `RestoreItemActionGRPCClient.AppliesTo`: sends a request carrying only
the plugin name; on channel failure returns the zero-valued selector with
the error unchanged; on success maps the five wire selector fields 1:1 into
a `ResourceSelector`.  The Go return convention `(value, error)` is kept as
a pair with an optional error. -/
def RestoreItemActionGRPCClient.AppliesTo (c : RestoreItemActionGRPCClient) :
    ResourceSelector × Option PErr :=
  match c.grpcAppliesTo ⟨c.plugin⟩ with
  | .error e => (⟨[], [], [], [], ""⟩, some e)
  | .ok res =>
    (⟨res.includedNamespaces, res.excludedNamespaces, res.includedResources,
      res.excludedResources, res.selector⟩, none)

/-- `RestoreItemActionGRPCClient.Execute`: serializes the three input
documents (failing immediately, before any RPC, if one cannot be encoded),
sends the envelope, deserializes the result item, and reconstitutes a
non-empty warning string into a warning value.  The Go return convention
`(*output, error)` is kept as a pair of options. -/
def RestoreItemActionGRPCClient.Execute (c : RestoreItemActionGRPCClient)
    (input : RestoreItemActionExecuteInput) :
    Option RestoreItemActionExecuteOutput × Option PErr :=
  match marshal input.item with
  | .error e => (none, some e)
  | .ok itemJSON =>
    match marshal input.itemFromBackup with
    | .error e => (none, some e)
    | .ok itemFromBackupJSON =>
      match marshal input.restore with
      | .error e => (none, some e)
      | .ok restoreJSON =>
        match c.grpcExecute ⟨c.plugin, itemJSON, itemFromBackupJSON, restoreJSON⟩ with
        | .error e => (none, some e)
        | .ok res =>
          match unmarshal res.item with
          | .error e => (none, some e)
          | .ok updatedItem =>
            (some ⟨updatedItem, if res.warning = "" then none else some res.warning⟩,
             none)

/-- `RestoreItemActionGRPCServer`: the callee-side Dispatcher, holding the
Registry. -/
structure RestoreItemActionGRPCServer where
  mux : serverMux

/-- `RestoreItemActionGRPCServer.getImpl`: resolve the plugin name through
the Registry, then check that the handler object implements the
RestoreItemAction interface (the Go type assertion), failing with an error
naming the mismatched type otherwise. -/
def RestoreItemActionGRPCServer.getImpl (s : RestoreItemActionGRPCServer)
    (name : String) : Except PErr RestoreItemAction :=
  match s.mux.getHandler name with
  | .error e => .error e
  | .ok impl =>
    match impl with
    | .restoreItemAction itemAction => .ok itemAction
    | .other t => .error (.notRestoreItemAction t)

/-- `RestoreItemActionGRPCServer.AppliesTo`: resolve the implementation,
invoke its AppliesTo behind the fault guard (a panic becomes the error
produced by `handlePanic` instead of propagating), and map the selector
fields 1:1 into the response envelope. -/
def RestoreItemActionGRPCServer.AppliesTo (s : RestoreItemActionGRPCServer)
    (req : AppliesToRequest) : Except PErr AppliesToResponse :=
  match s.getImpl req.plugin with
  | .error e => .error e
  | .ok impl =>
    match impl.AppliesTo with
    | .panicked diag => .error (handlePanic diag)
    | .err msg => .error (.remote msg)
    | .ok appliesTo =>
      .ok ⟨appliesTo.includedNamespaces, appliesTo.excludedNamespaces,
           appliesTo.includedResources, appliesTo.excludedResources,
           appliesTo.labelSelector⟩

/-- `RestoreItemActionGRPCServer.Execute`: resolve the implementation,
deserialize the three payload fields, invoke Execute behind the fault guard
(a panic becomes the error produced by `handlePanic` instead of
propagating), serialize the updated item, and flatten a warning value into
the warning string of the response envelope (empty when absent). -/
def RestoreItemActionGRPCServer.Execute (s : RestoreItemActionGRPCServer)
    (req : RestoreExecuteRequest) : Except PErr RestoreExecuteResponse :=
  match s.getImpl req.plugin with
  | .error e => .error e
  | .ok impl =>
    match unmarshal req.item with
    | .error e => .error e
    | .ok item =>
      match unmarshal req.itemFromBackup with
      | .error e => .error e
      | .ok itemFromBackup =>
        match unmarshal req.restore with
        | .error e => .error e
        | .ok restoreObj =>
          match impl.Execute ⟨item, itemFromBackup, restoreObj⟩ with
          | .panicked diag => .error (handlePanic diag)
          | .err msg => .error (.remote msg)
          | .ok executeOutput =>
            match marshal executeOutput.updatedItem with
            | .error e => .error e
            | .ok updatedItem =>
              .ok ⟨updatedItem,
                   match executeOutput.warning with
                   | some w => w
                   | none => ""⟩

/-- The Stub wired directly to a Dispatcher: the gRPC channel is the
in-process composition of the two sides, used for end-to-end statements. -/
def stubFor (s : RestoreItemActionGRPCServer) (name : String) :
    RestoreItemActionGRPCClient :=
  ⟨name, s.AppliesTo, s.Execute⟩

/-- Claim C1: for every invocation of the Dispatcher's AppliesTo or Execute
handler, if invoking the registered implementation raises an unrecoverable
runtime fault, the handler intercepts it at the fault-guard boundary and
returns an ordinary error value carrying the diagnostic information — the
faulting call returns `RecoveredFaultError`.  The handler is a total
function into `Except`, so the fault never propagates out of the handler:
the serving process stays alive.  -/
theorem dispatcher_recovers_fault (s : RestoreItemActionGRPCServer)
    (impl : RestoreItemAction) (diag : String) :
    (∀ req : AppliesToRequest, s.getImpl req.plugin = .ok impl →
      impl.AppliesTo = .panicked diag →
      s.AppliesTo req = .error (.recoveredFault diag)) ∧
    (∀ (req : RestoreExecuteRequest) (item itemFromBackup restoreObj : Doc),
      s.getImpl req.plugin = .ok impl →
      unmarshal req.item = .ok item →
      unmarshal req.itemFromBackup = .ok itemFromBackup →
      unmarshal req.restore = .ok restoreObj →
      impl.Execute ⟨item, itemFromBackup, restoreObj⟩ = .panicked diag →
      s.Execute req = .error (.recoveredFault diag)) := by
  constructor
  · intro req h1 h2
    simp only [RestoreItemActionGRPCServer.AppliesTo, h1, h2, handlePanic]
  · intro req item itemFromBackup restoreObj h1 h2 h3 h4 h5
    simp only [RestoreItemActionGRPCServer.Execute, h1, h2, h3, h4, h5, handlePanic]

/-- Witness for C1: a registry with one registered implementation that
faults; Execute on it returns the recovered-fault error. -/
theorem dispatcher_recovers_fault_witness :
    (RestoreItemActionGRPCServer.mk ⟨[("plugins.io/panics",
        Handler.restoreItemAction
          ⟨Outcome.panicked "boom", fun _ => Outcome.panicked "boom"⟩)]⟩).Execute
      ⟨"plugins.io/panics", Wire.enc Doc.null, Wire.enc Doc.null, Wire.enc Doc.null⟩ =
      Except.error (PErr.recoveredFault "boom") :=
  (dispatcher_recovers_fault
      (RestoreItemActionGRPCServer.mk ⟨[("plugins.io/panics",
        Handler.restoreItemAction
          ⟨Outcome.panicked "boom", fun _ => Outcome.panicked "boom"⟩)]⟩)
      ⟨Outcome.panicked "boom", fun _ => Outcome.panicked "boom"⟩ "boom").2
    ⟨"plugins.io/panics", Wire.enc Doc.null, Wire.enc Doc.null, Wire.enc Doc.null⟩
    Doc.null Doc.null Doc.null rfl rfl rfl rfl rfl

/-- Claim C4: a request whose plugin name has no Registry entry fails, in
both handlers, with `UnknownPluginError` naming the requested plugin — the
conclusion is the same for every registry content behind the missing name,
so no implementation is ever invoked; and for a fixed Registry, resolution
of a registered name is deterministic: any two resolutions of the same name
yield the same implementation. -/
theorem unknown_plugin_rejected (s : RestoreItemActionGRPCServer) (name : String) :
    (List.lookup name s.mux.handlers = none →
      s.AppliesTo ⟨name⟩ = .error (.unknownPlugin name) ∧
      ∀ item itemFromBackup restore : Wire,
        s.Execute ⟨name, item, itemFromBackup, restore⟩ =
          .error (.unknownPlugin name)) ∧
    (∀ impl₁ impl₂ : RestoreItemAction,
      s.getImpl name = .ok impl₁ → s.getImpl name = .ok impl₂ → impl₁ = impl₂) := by
  constructor
  · intro h
    have hg : s.getImpl name = .error (.unknownPlugin name) := by
      simp only [RestoreItemActionGRPCServer.getImpl, serverMux.getHandler, h]
    constructor
    · simp only [RestoreItemActionGRPCServer.AppliesTo, hg]
    · intro item itemFromBackup restore
      simp only [RestoreItemActionGRPCServer.Execute, hg]
  · intro impl₁ impl₂ h1 h2
    rw [h1] at h2
    exact (Except.ok.injEq _ _ ▸ h2 : impl₁ = impl₂)

/-- Witness for C4: Execute against an empty registry fails with the
unknown-plugin error naming the requested plugin. -/
theorem unknown_plugin_rejected_witness :
    (RestoreItemActionGRPCServer.mk ⟨[]⟩).Execute
      ⟨"plugins.io/missing", Wire.enc Doc.null, Wire.enc Doc.null, Wire.enc Doc.null⟩ =
      Except.error (PErr.unknownPlugin "plugins.io/missing") :=
  ((unknown_plugin_rejected (RestoreItemActionGRPCServer.mk ⟨[]⟩)
      "plugins.io/missing").1 rfl).2
    (Wire.enc Doc.null) (Wire.enc Doc.null) (Wire.enc Doc.null)

/-- Claim C9: a plugin name that resolves to a registered handler object
which does not implement the RestoreItemAction interface fails, in both
handlers, with the error naming the mismatched dynamic type — the
conclusion is the same for every such handler, so no operation is ever
invoked on the object: registry membership alone does not suffice for
dispatch. -/
theorem non_ria_handler_rejected (s : RestoreItemActionGRPCServer)
    (name typeName : String)
    (h : s.mux.getHandler name = .ok (.other typeName)) :
    s.getImpl name = .error (.notRestoreItemAction typeName) ∧
    s.AppliesTo ⟨name⟩ = .error (.notRestoreItemAction typeName) ∧
    ∀ item itemFromBackup restore : Wire,
      s.Execute ⟨name, item, itemFromBackup, restore⟩ =
        .error (.notRestoreItemAction typeName) := by
  have hg : s.getImpl name = .error (.notRestoreItemAction typeName) := by
    simp only [RestoreItemActionGRPCServer.getImpl, h]
  refine ⟨hg, ?_, ?_⟩
  · simp only [RestoreItemActionGRPCServer.AppliesTo, hg]
  · intro item itemFromBackup restore
    simp only [RestoreItemActionGRPCServer.Execute, hg]

/-- Witness for C9: a registry entry holding a non-RestoreItemAction object
is rejected by AppliesTo with the type-mismatch error. -/
theorem non_ria_handler_rejected_witness :
    (RestoreItemActionGRPCServer.mk ⟨[("plugins.io/other",
        Handler.other "*plugin.pluginBase")]⟩).AppliesTo ⟨"plugins.io/other"⟩ =
      Except.error (PErr.notRestoreItemAction "*plugin.pluginBase") :=
  (non_ria_handler_rejected
      (RestoreItemActionGRPCServer.mk ⟨[("plugins.io/other",
        Handler.other "*plugin.pluginBase")]⟩)
      "plugins.io/other" "*plugin.pluginBase" rfl).2.1

/-- Claim C5: if any of the three input documents of the Stub's Execute
cannot be encoded by the serializer, the call returns the serialization
error immediately.  The statement quantifies over every Stub — in
particular over every RPC channel — and the conclusion never depends on the
channel, so the remote side is never contacted. -/
theorem serialization_failure_short_circuits (c : RestoreItemActionGRPCClient)
    (input : RestoreItemActionExecuteInput)
    (h : input.item.serializable = false ∨
         input.itemFromBackup.serializable = false ∨
         input.restore.serializable = false) :
    c.Execute input = (none, some .serialization) := by
  rcases h with h | h | h
  · simp [RestoreItemActionGRPCClient.Execute, marshal, h]
  · cases ha : input.item.serializable <;>
      simp [RestoreItemActionGRPCClient.Execute, marshal, ha, h]
  · cases ha : input.item.serializable <;>
      cases hb : input.itemFromBackup.serializable <;>
        simp [RestoreItemActionGRPCClient.Execute, marshal, ha, hb, h]

/-- Witness for C5: an input whose current item holds a value the wire
encoding cannot represent makes Execute fail with the serialization error,
for a channel that would have answered successfully. -/
theorem serialization_failure_short_circuits_witness :
    (RestoreItemActionGRPCClient.mk "plugins.io/my-action"
        (fun _ => Except.ok ⟨[], [], [], [], ""⟩)
        (fun _ => Except.ok ⟨Wire.enc Doc.null, ""⟩)).Execute
      ⟨Doc.unsupported "go-channel", Doc.null, Doc.null⟩ =
      (none, some PErr.serialization) :=
  serialization_failure_short_circuits
    (RestoreItemActionGRPCClient.mk "plugins.io/my-action"
        (fun _ => Except.ok ⟨[], [], [], [], ""⟩)
        (fun _ => Except.ok ⟨Wire.enc Doc.null, ""⟩))
    ⟨Doc.unsupported "go-channel", Doc.null, Doc.null⟩ (Or.inl rfl)

/-- Claim C2: on a successful remote Execute response whose item decodes,
the Stub returns the decoded updated item; a non-empty warning string W in
the response becomes a warning value with message W next to the item, and
an empty warning string becomes no warning.  In both cases the error
component is none: a warning is delivered alongside a result, never instead
of one. -/
theorem warning_passthrough (c : RestoreItemActionGRPCClient)
    (input : RestoreItemActionExecuteInput)
    (res : RestoreExecuteResponse) (updatedItem : Doc)
    (h1 : input.item.serializable = true)
    (h2 : input.itemFromBackup.serializable = true)
    (h3 : input.restore.serializable = true)
    (hres : c.grpcExecute ⟨c.plugin, .enc input.item, .enc input.itemFromBackup,
        .enc input.restore⟩ = .ok res)
    (hdec : unmarshal res.item = .ok updatedItem) :
    (res.warning ≠ "" →
      c.Execute input = (some ⟨updatedItem, some res.warning⟩, none)) ∧
    (res.warning = "" →
      c.Execute input = (some ⟨updatedItem, none⟩, none)) := by
  have e : c.Execute input =
      (some ⟨updatedItem, if res.warning = "" then none else some res.warning⟩,
       none) := by
    simp [RestoreItemActionGRPCClient.Execute, marshal, h1, h2, h3, hres, hdec]
  constructor
  · intro hw
    rw [e, if_neg hw]
  · intro hw
    rw [e, if_pos hw]

/-- Witness for C2: a channel answering with warning string "careful"
yields the decoded item together with that warning and no error. -/
theorem warning_passthrough_witness :
    (RestoreItemActionGRPCClient.mk "plugins.io/my-action"
        (fun _ => Except.ok ⟨[], [], [], [], ""⟩)
        (fun _ => Except.ok ⟨Wire.enc (Doc.str "updated"), "careful"⟩)).Execute
      ⟨Doc.null, Doc.null, Doc.null⟩ =
      (some ⟨Doc.str "updated", some "careful"⟩, none) :=
  (warning_passthrough
      (RestoreItemActionGRPCClient.mk "plugins.io/my-action"
        (fun _ => Except.ok ⟨[], [], [], [], ""⟩)
        (fun _ => Except.ok ⟨Wire.enc (Doc.str "updated"), "careful"⟩))
      ⟨Doc.null, Doc.null, Doc.null⟩
      ⟨Wire.enc (Doc.str "updated"), "careful"⟩ (Doc.str "updated")
      rfl rfl rfl rfl rfl).1 (by decide)

/-- Claim C8: when the channel call behind the Stub's AppliesTo fails, the
Stub returns the error unchanged together with the zero-valued selector;
and when it succeeds, the returned selector is fully populated from the
response with no error — a partially populated selector is never an
outcome. -/
theorem appliesTo_transport_error (c : RestoreItemActionGRPCClient) :
    (∀ e : PErr, c.grpcAppliesTo ⟨c.plugin⟩ = .error e →
      c.AppliesTo = (⟨[], [], [], [], ""⟩, some e)) ∧
    (∀ res : AppliesToResponse, c.grpcAppliesTo ⟨c.plugin⟩ = .ok res →
      c.AppliesTo = (⟨res.includedNamespaces, res.excludedNamespaces,
        res.includedResources, res.excludedResources, res.selector⟩, none)) := by
  constructor
  · intro e h
    simp only [RestoreItemActionGRPCClient.AppliesTo, h]
  · intro res h
    simp only [RestoreItemActionGRPCClient.AppliesTo, h]

/-- Witness for C8: a failing channel makes AppliesTo return the transport
error unchanged with the empty selector. -/
theorem appliesTo_transport_error_witness :
    (RestoreItemActionGRPCClient.mk "plugins.io/my-action"
        (fun _ => Except.error (PErr.transport "connection refused"))
        (fun _ => Except.error (PErr.transport "connection refused"))).AppliesTo =
      (⟨[], [], [], [], ""⟩, some (PErr.transport "connection refused")) :=
  (appliesTo_transport_error
      (RestoreItemActionGRPCClient.mk "plugins.io/my-action"
        (fun _ => Except.error (PErr.transport "connection refused"))
        (fun _ => Except.error (PErr.transport "connection refused")))).1
    (PErr.transport "connection refused") rfl

/-- Claim C7: the five selector fields are mapped one-to-one and unmodified
on both paths of a successful AppliesTo call: the Dispatcher copies the
implementation's ResourceSelector fields into the response envelope, and
the Stub copies the response envelope's fields into the returned
ResourceSelector. -/
theorem selector_fields_mapped (s : RestoreItemActionGRPCServer)
    (impl : RestoreItemAction) (sel : ResourceSelector)
    (c : RestoreItemActionGRPCClient) (res : AppliesToResponse) :
    (∀ req : AppliesToRequest, s.getImpl req.plugin = .ok impl →
      impl.AppliesTo = .ok sel →
      s.AppliesTo req = .ok ⟨sel.includedNamespaces, sel.excludedNamespaces,
        sel.includedResources, sel.excludedResources, sel.labelSelector⟩) ∧
    (c.grpcAppliesTo ⟨c.plugin⟩ = .ok res →
      c.AppliesTo = (⟨res.includedNamespaces, res.excludedNamespaces,
        res.includedResources, res.excludedResources, res.selector⟩, none)) := by
  constructor
  · intro req h1 h2
    simp only [RestoreItemActionGRPCServer.AppliesTo, h1, h2]
  · intro h
    simp only [RestoreItemActionGRPCClient.AppliesTo, h]

/-- Witness for C7: the example selector (includedNamespaces=["ns1"],
excludedResources=["pods"], labelSelector="app=foo") travels unmodified
through the Dispatcher's encoding path and through the Stub's decoding
path. -/
theorem selector_fields_mapped_witness :
    (RestoreItemActionGRPCServer.mk ⟨[("plugins.io/my-action",
        Handler.restoreItemAction
          ⟨Outcome.ok ⟨["ns1"], [], [], ["pods"], "app=foo"⟩,
           fun _ => Outcome.err "unused"⟩)]⟩).AppliesTo ⟨"plugins.io/my-action"⟩ =
      Except.ok ⟨["ns1"], [], [], ["pods"], "app=foo"⟩ ∧
    (RestoreItemActionGRPCClient.mk "plugins.io/my-action"
        (fun _ => Except.ok ⟨["ns1"], [], [], ["pods"], "app=foo"⟩)
        (fun _ => Except.error (PErr.transport "unused"))).AppliesTo =
      (⟨["ns1"], [], [], ["pods"], "app=foo"⟩, none) :=
  ⟨(selector_fields_mapped
      (RestoreItemActionGRPCServer.mk ⟨[("plugins.io/my-action",
        Handler.restoreItemAction
          ⟨Outcome.ok ⟨["ns1"], [], [], ["pods"], "app=foo"⟩,
           fun _ => Outcome.err "unused"⟩)]⟩)
      ⟨Outcome.ok ⟨["ns1"], [], [], ["pods"], "app=foo"⟩,
       fun _ => Outcome.err "unused"⟩
      ⟨["ns1"], [], [], ["pods"], "app=foo"⟩
      (RestoreItemActionGRPCClient.mk "plugins.io/my-action"
        (fun _ => Except.ok ⟨["ns1"], [], [], ["pods"], "app=foo"⟩)
        (fun _ => Except.error (PErr.transport "unused")))
      ⟨["ns1"], [], [], ["pods"], "app=foo"⟩).1
      ⟨"plugins.io/my-action"⟩ rfl rfl,
   (selector_fields_mapped
      (RestoreItemActionGRPCServer.mk ⟨[("plugins.io/my-action",
        Handler.restoreItemAction
          ⟨Outcome.ok ⟨["ns1"], [], [], ["pods"], "app=foo"⟩,
           fun _ => Outcome.err "unused"⟩)]⟩)
      ⟨Outcome.ok ⟨["ns1"], [], [], ["pods"], "app=foo"⟩,
       fun _ => Outcome.err "unused"⟩
      ⟨["ns1"], [], [], ["pods"], "app=foo"⟩
      (RestoreItemActionGRPCClient.mk "plugins.io/my-action"
        (fun _ => Except.ok ⟨["ns1"], [], [], ["pods"], "app=foo"⟩)
        (fun _ => Except.error (PErr.transport "unused")))
      ⟨["ns1"], [], [], ["pods"], "app=foo"⟩).2 rfl⟩

/-- The deserializer signals only the serialization error: any failing
`unmarshal` fails with it. -/
theorem unmarshal_error_serialization (w : Wire) (e : PErr)
    (h : unmarshal w = .error e) : e = PErr.serialization := by
  cases w with
  | enc d => simp [unmarshal] at h
  | garbage t =>
    simp [unmarshal] at h
    exact h.symm

/-- Claim C6: an Execute request whose plugin name resolves to a registered
implementation but whose item, itemFromBackup or restore payload bytes fail
to deserialize is failed by the Dispatcher with the serialization error.
The statement quantifies over the resolved implementation and the
conclusion never depends on it, so the implementation is never invoked. -/
theorem server_deserialization_failure (s : RestoreItemActionGRPCServer)
    (impl : RestoreItemAction) (req : RestoreExecuteRequest)
    (himpl : s.getImpl req.plugin = .ok impl)
    (h : unmarshal req.item = .error .serialization ∨
         unmarshal req.itemFromBackup = .error .serialization ∨
         unmarshal req.restore = .error .serialization) :
    s.Execute req = .error .serialization := by
  rcases h with h | h | h
  · simp only [RestoreItemActionGRPCServer.Execute, himpl, h]
  · cases ha : unmarshal req.item with
    | error e =>
      obtain rfl := unmarshal_error_serialization _ _ ha
      simp only [RestoreItemActionGRPCServer.Execute, himpl, ha]
    | ok item =>
      simp only [RestoreItemActionGRPCServer.Execute, himpl, ha, h]
  · cases ha : unmarshal req.item with
    | error e =>
      obtain rfl := unmarshal_error_serialization _ _ ha
      simp only [RestoreItemActionGRPCServer.Execute, himpl, ha]
    | ok item =>
      cases hb : unmarshal req.itemFromBackup with
      | error e =>
        obtain rfl := unmarshal_error_serialization _ _ hb
        simp only [RestoreItemActionGRPCServer.Execute, himpl, ha, hb]
      | ok itemFromBackup =>
        simp only [RestoreItemActionGRPCServer.Execute, himpl, ha, hb, h]

/-- Witness for C6: a request carrying undecodable bytes in the
itemFromBackup field fails with the serialization error although the
plugin is registered. -/
theorem server_deserialization_failure_witness :
    (RestoreItemActionGRPCServer.mk ⟨[("plugins.io/my-action",
        Handler.restoreItemAction
          ⟨Outcome.err "unused", fun inp => Outcome.ok ⟨inp.item, none⟩⟩)]⟩).Execute
      ⟨"plugins.io/my-action", Wire.enc Doc.null, Wire.garbage 0, Wire.enc Doc.null⟩ =
      Except.error PErr.serialization :=
  server_deserialization_failure
    (RestoreItemActionGRPCServer.mk ⟨[("plugins.io/my-action",
        Handler.restoreItemAction
          ⟨Outcome.err "unused", fun inp => Outcome.ok ⟨inp.item, none⟩⟩)]⟩)
    ⟨Outcome.err "unused", fun inp => Outcome.ok ⟨inp.item, none⟩⟩
    ⟨"plugins.io/my-action", Wire.enc Doc.null, Wire.garbage 0, Wire.enc Doc.null⟩
    rfl (Or.inr (Or.inl rfl))

/-- Claim C10: in the Dispatcher's Execute, when the resolved
implementation completes successfully but its returned updated item cannot
be encoded on the return path, the call fails with the serialization error
and no response envelope is produced — the implementation having run does
not guarantee the caller observes success. -/
theorem return_path_marshal_failure (s : RestoreItemActionGRPCServer)
    (impl : RestoreItemAction) (req : RestoreExecuteRequest)
    (item itemFromBackup restoreObj : Doc)
    (out : RestoreItemActionExecuteOutput)
    (h1 : s.getImpl req.plugin = .ok impl)
    (h2 : unmarshal req.item = .ok item)
    (h3 : unmarshal req.itemFromBackup = .ok itemFromBackup)
    (h4 : unmarshal req.restore = .ok restoreObj)
    (h5 : impl.Execute ⟨item, itemFromBackup, restoreObj⟩ = .ok out)
    (h6 : out.updatedItem.serializable = false) :
    s.Execute req = .error .serialization := by
  simp [RestoreItemActionGRPCServer.Execute, marshal, h1, h2, h3, h4, h5, h6]

/-- Witness for C10: an implementation that runs successfully but hands
back an item the wire encoding cannot represent makes the call fail with
the serialization error. -/
theorem return_path_marshal_failure_witness :
    (RestoreItemActionGRPCServer.mk ⟨[("plugins.io/my-action",
        Handler.restoreItemAction
          ⟨Outcome.err "unused",
           fun _ => Outcome.ok ⟨Doc.unsupported "go-func", none⟩⟩)]⟩).Execute
      ⟨"plugins.io/my-action", Wire.enc Doc.null, Wire.enc Doc.null, Wire.enc Doc.null⟩ =
      Except.error PErr.serialization :=
  return_path_marshal_failure
    (RestoreItemActionGRPCServer.mk ⟨[("plugins.io/my-action",
        Handler.restoreItemAction
          ⟨Outcome.err "unused",
           fun _ => Outcome.ok ⟨Doc.unsupported "go-func", none⟩⟩)]⟩)
    ⟨Outcome.err "unused", fun _ => Outcome.ok ⟨Doc.unsupported "go-func", none⟩⟩
    ⟨"plugins.io/my-action", Wire.enc Doc.null, Wire.enc Doc.null, Wire.enc Doc.null⟩
    Doc.null Doc.null Doc.null ⟨Doc.unsupported "go-func", none⟩
    rfl rfl rfl rfl rfl rfl

/-- Claim C3: end-to-end success path.  With a Registry holding the single
entry "plugins.io/my-action" bound to implementation M, the Stub wired to
that Dispatcher and calling Execute with item {"kind":"Pod"},
itemFromBackup {"kind":"Pod","status":"old"} and restore descriptor
{"name":"r1"} dispatches to M (M receives exactly those three decoded
documents); when M returns updated item {"kind":"Pod","status":"restored"}
with no warning and no error, the Stub-side caller observes that updated
item, no warning, and no error. -/
theorem end_to_end_success (M : RestoreItemAction)
    (hM : M.Execute ⟨Doc.obj [("kind", Doc.str "Pod")],
            Doc.obj [("kind", Doc.str "Pod"), ("status", Doc.str "old")],
            Doc.obj [("name", Doc.str "r1")]⟩ =
          .ok ⟨Doc.obj [("kind", Doc.str "Pod"), ("status", Doc.str "restored")],
               none⟩) :
    (stubFor (RestoreItemActionGRPCServer.mk ⟨[("plugins.io/my-action",
        Handler.restoreItemAction M)]⟩) "plugins.io/my-action").Execute
      ⟨Doc.obj [("kind", Doc.str "Pod")],
       Doc.obj [("kind", Doc.str "Pod"), ("status", Doc.str "old")],
       Doc.obj [("name", Doc.str "r1")]⟩ =
      (some ⟨Doc.obj [("kind", Doc.str "Pod"), ("status", Doc.str "restored")],
             none⟩,
       none) := by
  have hg : (RestoreItemActionGRPCServer.mk ⟨[("plugins.io/my-action",
      Handler.restoreItemAction M)]⟩).getImpl "plugins.io/my-action" =
      .ok M := rfl
  have m1 : marshal (Doc.obj [("kind", Doc.str "Pod")]) =
      .ok (.enc (Doc.obj [("kind", Doc.str "Pod")])) := rfl
  have m2 : marshal (Doc.obj [("kind", Doc.str "Pod"), ("status", Doc.str "old")]) =
      .ok (.enc (Doc.obj [("kind", Doc.str "Pod"), ("status", Doc.str "old")])) := rfl
  have m3 : marshal (Doc.obj [("name", Doc.str "r1")]) =
      .ok (.enc (Doc.obj [("name", Doc.str "r1")])) := rfl
  have m4 : marshal (Doc.obj [("kind", Doc.str "Pod"),
      ("status", Doc.str "restored")]) =
      .ok (.enc (Doc.obj [("kind", Doc.str "Pod"),
        ("status", Doc.str "restored")])) := rfl
  simp [stubFor, RestoreItemActionGRPCClient.Execute,
    RestoreItemActionGRPCServer.Execute, unmarshal,
    hg, m1, m2, m3, m4, hM]

/-- Witness for C3: a concrete implementation returning the restored item
realizes the scenario. -/
theorem end_to_end_success_witness :
    (stubFor (RestoreItemActionGRPCServer.mk ⟨[("plugins.io/my-action",
        Handler.restoreItemAction
          ⟨Outcome.err "unused",
           fun _ => Outcome.ok ⟨Doc.obj [("kind", Doc.str "Pod"),
             ("status", Doc.str "restored")], none⟩⟩)]⟩)
        "plugins.io/my-action").Execute
      ⟨Doc.obj [("kind", Doc.str "Pod")],
       Doc.obj [("kind", Doc.str "Pod"), ("status", Doc.str "old")],
       Doc.obj [("name", Doc.str "r1")]⟩ =
      (some ⟨Doc.obj [("kind", Doc.str "Pod"), ("status", Doc.str "restored")],
             none⟩,
       none) :=
  end_to_end_success
    ⟨Outcome.err "unused",
     fun _ => Outcome.ok ⟨Doc.obj [("kind", Doc.str "Pod"),
       ("status", Doc.str "restored")], none⟩⟩ rfl
